import Mathlib

/-!
Verification of the openpaisdk repository against its specification.

The development shallowly embeds the two source files:
* src/commands/utils.ts      (readJson, writeJson, jobTemplate)
* tests/common/apiTestCases.ts  (RandomString, the static test-case table)

External libraries (fs-extra, nunjucks) and fixtures (clusters.json,
testJobConfig) are not part of the repository source; where a claim depends
on them they are modelled from the specification, as marked by doc comments.
-/

namespace OpenPaiSdk

/-! ## JSON values

A JSON value type used for raw parameter literals and file contents.
Numbers are modelled as integers (every numeric literal in the sources is an
integer). -/

inductive JValue where
  | null
  | bool (b : Bool)
  | num (n : Int)
  | str (s : String)
  | arr (elems : List JValue)
  | obj (fields : List (String × JValue))

/-! ## Association-list primitives

JavaScript object assignment m[k] = v overwrites an existing key in place and
otherwise appends; property lookup returns the first (unique) binding. -/

def objSet {α : Type} (m : List (String × α)) (k : String) (v : α) :
    List (String × α) :=
  match m with
  | [] => [(k, v)]
  | (k1, v1) :: rest =>
      if k1 = k then (k, v) :: rest else (k1, v1) :: objSet rest k v

def objLookup {α : Type} (m : List (String × α)) (k : String) : Option α :=
  match m with
  | [] => none
  | (k1, v1) :: rest => if k1 = k then some v1 else objLookup rest k

theorem objLookup_objSet {α : Type} (m : List (String × α)) (k : String)
    (v : α) : objLookup (objSet m k v) k = some v := by
  induction m with
  | nil => simp [objSet, objLookup]
  | cons hd tl ih =>
      obtain ⟨k1, v1⟩ := hd
      by_cases hk : k1 = k
      · simp [objSet, hk, objLookup]
      · simp [objSet, hk, objLookup, ih]

/-! ## Template rendering (jobTemplate, src/commands/utils.ts lines 42-58) -/

/-- Modelled from the spec: the auto-escaping applied by the template engine
to substituted content (nunjucks autoescape; library code, not repository
source). HTML-significant characters are replaced by entities. -/
def escapeChar (c : Char) : String :=
  if c = '&' then "&amp;"
  else if c = '<' then "&lt;"
  else if c = '>' then "&gt;"
  else if c = '"' then "&quot;"
  else if c = '\'' then "&#39;"
  else String.singleton c

def escapeHtml (s : String) : String :=
  s.data.foldl (fun acc c => acc ++ escapeChar c) ""

/-- JavaScript String.split with a single-character separator, on char
lists: splitting never yields the empty list, and separators delimit
(possibly empty) fields. -/
def splitOnChar (sep : Char) : List Char → List (List Char)
  | [] => [[]]
  | c :: rest =>
      match splitOnChar sep rest with
      | [] => [[]]
      | cur :: parts =>
          if c = sep then [] :: cur :: parts
          else (c :: cur) :: parts

/-- JavaScript s.split(sep) for a one-character separator. -/
def jsSplit (sep : Char) (s : String) : List String :=
  (splitOnChar sep s.data).map String.mk

def isSpaceChar (c : Char) : Bool :=
  c = ' ' || c = '\t' || c = '\n' || c = '\r'

/-- Whitespace trimming applied to placeholder keys (the template engine
accepts spaces inside the braces). -/
def trimChars (l : List Char) : List Char :=
  ((l.dropWhile isSpaceChar).reverse.dropWhile isSpaceChar).reverse

/-- Modelled from the spec: the template engine substitution
(nunjucks renderString; library code, not repository source).  Scans the
text; each placeholder written as a doubled opening brace, a key and a
doubled closing brace is replaced by the escaped mapped value of the
(trimmed) key, an unmapped key producing the empty string; all other
characters are copied verbatim.  The first argument is the scanning mode:
none is plain-text mode, some acc is inside a placeholder whose key
characters so far are acc (reversed). -/
def renderAux (m : List (String × String)) :
    Option (List Char) → List Char → String
  | none, [] => ""
  | none, '{' :: '{' :: rest => renderAux m (some []) rest
  | none, c :: rest => String.singleton c ++ renderAux m none rest
  | some acc, [] => "\x7b\x7b" ++ String.mk acc.reverse
  | some acc, '}' :: '}' :: rest =>
      (match objLookup m (String.mk (trimChars acc.reverse)) with
       | some v => escapeHtml v
       | none => "") ++ renderAux m none rest
  | some acc, c :: rest => renderAux m (some (c :: acc)) rest

/-- Modelled from the spec: env.renderString(file, argsMap). -/
def renderString (text : String) (m : List (String × String)) : String :=
  renderAux m none text.data

/-- The argument-parsing loop of jobTemplate: split on semicolons, split each
entry on colons; an entry with exactly two parts is stored in the map
(overwriting), any other entry logs the message Arguments input error and is
skipped.  Returns the final map and the log lines, threading the accumulator
exactly as the source loop does. -/
def parsePairsAux : List String →
    List (String × String) × List String →
    List (String × String) × List String
  | [], acc => acc
  | p :: rest, acc =>
      match jsSplit ':' p with
      | [k, v] => parsePairsAux rest (objSet acc.1 k v, acc.2)
      | _ => parsePairsAux rest (acc.1, acc.2 ++ ["Arguments input error"])

def parseTemplateArgs (args : String) :
    List (String × String) × List String :=
  parsePairsAux (jsSplit ';' args) ([], [])

/-- jobTemplate with the console log made explicit; the string component is
the return value of the source function. -/
def jobTemplateWithLog (file : String) (args : Option String) :
    String × List String :=
  match args with
  | none => (file, [])
  | some a =>
      let parsed := parseTemplateArgs a
      (renderString file parsed.1, parsed.2)

/-- jobTemplate(file, args) from src/commands/utils.ts: absent args (null or
undefined, modelled as none) returns file unchanged; otherwise the parsed
argument map is rendered into the template. -/
def jobTemplate (file : String) (args : Option String) : String :=
  (jobTemplateWithLog file args).1

/-- A second definition written from the spec sentence for claim C1: parse
argsString as semicolon-separated key:value pairs into a mapping (malformed
entries contribute nothing). -/
def pairsOfSpec (args : String) : List (String × String) :=
  (jsSplit ';' args).foldl
    (fun acc p =>
      match jsSplit ':' p with
      | [k, v] => objSet acc k v
      | _ => acc)
    []

theorem parsePairsAux_fst (l : List String) (m : List (String × String))
    (lg : List String) :
    (parsePairsAux l (m, lg)).1 =
      l.foldl
        (fun acc p =>
          match jsSplit ':' p with
          | [k, v] => objSet acc k v
          | _ => acc)
        m := by
  induction l generalizing m lg with
  | nil => simp [parsePairsAux]
  | cons p rest ih =>
      simp only [parsePairsAux, List.foldl_cons]
      cases hp : jsSplit ':' p with
      | nil => exact ih m _
      | cons a tl =>
          cases tl with
          | nil => exact ih m _
          | cons b tl2 =>
              cases tl2 with
              | nil => exact ih (objSet m a b) lg
              | cons c tl3 => exact ih m _

theorem parsePairsAux_snd (l : List String) (m : List (String × String))
    (lg : List String) :
    (parsePairsAux l (m, lg)).2.length =
      lg.length + (l.filter (fun p => (jsSplit ':' p).length ≠ 2)).length := by
  induction l generalizing m lg with
  | nil => simp [parsePairsAux]
  | cons p rest ih =>
      simp only [parsePairsAux]
      cases hp : jsSplit ':' p with
      | nil =>
          rw [List.filter_cons_of_pos (by simp [hp])]
          rw [ih m (lg ++ ["Arguments input error"])]
          simp [Nat.add_assoc, Nat.add_comm 1]
      | cons a tl =>
          cases tl with
          | nil =>
              rw [List.filter_cons_of_pos (by simp [hp])]
              rw [ih m (lg ++ ["Arguments input error"])]
              simp [Nat.add_assoc, Nat.add_comm 1]
          | cons b tl2 =>
              cases tl2 with
              | nil =>
                  rw [List.filter_cons_of_neg (by simp [hp])]
                  exact ih (objSet m a b) lg
              | cons c tl3 =>
                  rw [List.filter_cons_of_pos (by simp [hp])]
                  rw [ih m (lg ++ ["Arguments input error"])]
                  simp [Nat.add_assoc, Nat.add_comm 1]

theorem parseTemplateArgs_fst (args : String) :
    (parseTemplateArgs args).1 = pairsOfSpec args := by
  simpa [parseTemplateArgs, pairsOfSpec] using
    parsePairsAux_fst (jsSplit ';' args) [] []

theorem parseTemplateArgs_snd (args : String) :
    (parseTemplateArgs args).2.length =
      ((jsSplit ';' args).filter
        (fun p => (jsSplit ':' p).length ≠ 2)).length := by
  simpa [parseTemplateArgs] using parsePairsAux_snd (jsSplit ';' args) [] []

theorem foldl_pairs_filter (l : List String) (m : List (String × String)) :
    l.foldl
      (fun acc p =>
        match jsSplit ':' p with
        | [k, v] => objSet acc k v
        | _ => acc)
      m =
    (l.filter (fun p => (jsSplit ':' p).length = 2)).foldl
      (fun acc p =>
        match jsSplit ':' p with
        | [k, v] => objSet acc k v
        | _ => acc)
      m := by
  induction l generalizing m with
  | nil => rfl
  | cons p rest ih =>
      simp only [List.foldl_cons]
      cases hp : jsSplit ':' p with
      | nil =>
          rw [List.filter_cons_of_neg (by simp [hp])]
          exact ih m
      | cons a tl =>
          cases tl with
          | nil =>
              rw [List.filter_cons_of_neg (by simp [hp])]
              exact ih m
          | cons b tl2 =>
              cases tl2 with
              | nil =>
                  rw [List.filter_cons_of_pos (by simp [hp])]
                  simp only [List.foldl_cons, hp]
                  exact ih (objSet m a b)
              | cons c tl3 =>
                  rw [List.filter_cons_of_neg (by simp [hp])]
                  exact ih m

/-- C1: for every template text and every argument string of
semicolon-separated key:value pairs in which each entry contains exactly one
colon, jobTemplate parses the pairs into the key-to-value mapping described
by the spec and renders text with every placeholder substituted by the
mapped value (auto-escaped), producing no malformed-entry log; in particular
on the two-placeholder template with arguments a:1;b:2 it yields 1-2. -/
theorem C1_jobTemplate_renders_pairs (text args : String)
    (h : ∀ p ∈ jsSplit ';' args, (jsSplit ':' p).length = 2) :
    jobTemplate text (some args) = renderString text (pairsOfSpec args) ∧
    (jobTemplateWithLog text (some args)).2 = [] ∧
    jobTemplate "\x7b\x7ba\x7d\x7d-\x7b\x7bb\x7d\x7d" (some "a:1;b:2") =
      "1-2" := by
  refine ⟨?_, ?_, by decide⟩
  · show renderString text (parseTemplateArgs args).1 = _
    rw [parseTemplateArgs_fst]
  · show (parseTemplateArgs args).2 = []
    have h2 := parseTemplateArgs_snd args
    have h3 : ((jsSplit ';' args).filter
        (fun p => (jsSplit ':' p).length ≠ 2)) = [] := by
      rw [List.filter_eq_nil_iff]
      intro p hp
      simp [h p hp]
    rw [h3] at h2
    simpa using List.length_eq_zero.mp (by simpa using h2)

theorem C1_jobTemplate_renders_pairs_witness :
    jobTemplate "\x7b\x7ba\x7d\x7d-\x7b\x7bb\x7d\x7d" (some "a:1;b:2") =
      renderString "\x7b\x7ba\x7d\x7d-\x7b\x7bb\x7d\x7d"
        (pairsOfSpec "a:1;b:2") ∧
    (jobTemplateWithLog "\x7b\x7ba\x7d\x7d-\x7b\x7bb\x7d\x7d"
      (some "a:1;b:2")).2 = [] ∧
    jobTemplate "\x7b\x7ba\x7d\x7d-\x7b\x7bb\x7d\x7d" (some "a:1;b:2") =
      "1-2" :=
  C1_jobTemplate_renders_pairs _ "a:1;b:2" (by decide)

/-- C2: jobTemplate with absent arguments (undefined or null, both modelled
as none) returns the template text unchanged. -/
theorem C2_jobTemplate_absent_args (text : String) :
    jobTemplate text none = text := rfl

/-- C3: entries of the semicolon-split argument string that do not split
into exactly two parts on the colon are skipped (the produced mapping equals
the one built from the well-formed entries alone), one log line is emitted
per malformed entry, and jobTemplate on the single colon-free argument
entry renders the text against the empty mapping while logging exactly the
source's message, rather than failing. -/
theorem C3_malformed_entries_skipped (text args : String) :
    (parseTemplateArgs args).1 =
      (parsePairsAux
        ((jsSplit ';' args).filter (fun p => (jsSplit ':' p).length = 2))
        ([], [])).1 ∧
    (jobTemplateWithLog text (some args)).2.length =
      ((jsSplit ';' args).filter
        (fun p => (jsSplit ':' p).length ≠ 2)).length ∧
    jobTemplateWithLog text (some "malformed") =
      (renderString text [], ["Arguments input error"]) := by
  refine ⟨?_, ?_, rfl⟩
  · rw [parseTemplateArgs_fst, parsePairsAux_fst, pairsOfSpec,
      foldl_pairs_filter]
  · show (parseTemplateArgs args).2.length = _
    exact parseTemplateArgs_snd args

/-! ## JSON file reading and writing (src/commands/utils.ts lines 14-32)

The file system is made explicit: a map from paths to file contents (a
stored content of none stands for a file whose text does not parse as JSON)
plus the set of existing directories.  Modelled from the spec: the fs-extra
primitives readJson, writeJSON and ensureDir, and path.dirname, are library
code, not repository source; they are embedded as operations on this state. -/

structure FileSystem where
  files : List (String × Option JValue)
  dirs : List String

/-- The JSON value the file at pth parses to, if the file exists and parses. -/
def parsedAt (fs : FileSystem) (pth : String) : Option JValue :=
  match objLookup fs.files pth with
  | some (some j) => some j
  | _ => none

/-- readJson(pth, val) from src/commands/utils.ts: return the parsed file
contents; on any read or parse failure fall back to val if provided (the
null check covers null and undefined), else fail. -/
def readJson (fs : FileSystem) (pth : String) (val : Option JValue) :
    Except String JValue :=
  match objLookup fs.files pth with
  | some (some data) => Except.ok data
  | _ =>
      match val with
      | some v => Except.ok v
      | none => Except.error ("cannot read or parse " ++ pth)

/-- Modelled from the spec: joining path components (path separator slash). -/
def jsJoin (sep : Char) : List String → String
  | [] => ""
  | [s] => s
  | s :: rest => s ++ String.singleton sep ++ jsJoin sep rest

/-- Modelled from the spec: path.dirname for slash-separated paths (library
code): every component but the last, or dot when there is no separator. -/
def dirname (pth : String) : String :=
  match jsSplit '/' pth with
  | [] => "."
  | [_] => "."
  | parts => jsJoin '/' parts.dropLast

/-- The directories fs.ensureDir(d) guarantees to exist: every
component-prefix of d. -/
def dirChain (d : String) : List String :=
  let parts := jsSplit '/' d
  (List.range parts.length).map (fun i => jsJoin '/' (parts.take (i + 1)))

/-- Modelled from the spec: fs.ensureDir creates the directory and any
missing parents, keeping existing ones. -/
def ensureDir (fs : FileSystem) (d : String) : FileSystem :=
  { fs with
    dirs := fs.dirs ++ (dirChain d).filter (fun x => decide (x ∉ fs.dirs)) }

/-- writeJson(pth, val) from src/commands/utils.ts: ensure the parent
directory chain exists, then store the serialized value at pth,
overwriting. -/
def writeJson (fs : FileSystem) (pth : String) (v : JValue) : FileSystem :=
  let fs2 := ensureDir fs (dirname pth)
  { fs2 with files := objSet fs2.files pth (some v) }

theorem readJson_eq (fs : FileSystem) (pth : String) (val : Option JValue) :
    readJson fs pth val =
      match parsedAt fs pth with
      | some j => Except.ok j
      | none =>
          match val with
          | some v => Except.ok v
          | none => Except.error ("cannot read or parse " ++ pth) := by
  unfold readJson parsedAt
  cases h : objLookup fs.files pth with
  | none => rfl
  | some o => cases o <;> rfl

/-- C4: readJson returns the provided fallback unchanged on any read or
parse failure (missing file or unparseable contents), fails with an error
when no fallback was provided, and returns the exact parsed structure of a
valid JSON file regardless of the fallback. -/
theorem C4_readJson_fallback (fs : FileSystem) (pth : String) :
    (∀ fb : JValue, parsedAt fs pth = none →
      readJson fs pth (some fb) = Except.ok fb) ∧
    (parsedAt fs pth = none →
      readJson fs pth none = Except.error ("cannot read or parse " ++ pth)) ∧
    (∀ (j : JValue) (fb : Option JValue), parsedAt fs pth = some j →
      readJson fs pth fb = Except.ok j) := by
  refine ⟨?_, ?_, ?_⟩
  · intro fb hnone
    rw [readJson_eq, hnone]
  · intro hnone
    rw [readJson_eq, hnone]
  · intro j fb hj
    rw [readJson_eq, hj]

def fsA : FileSystem :=
  ⟨[("ok.json", some (JValue.bool true)), ("bad.json", none)], []⟩

theorem C4_readJson_fallback_witness :
    readJson fsA "missing.json" (some (JValue.str "fb")) =
      Except.ok (JValue.str "fb") ∧
    readJson fsA "bad.json" none =
      Except.error ("cannot read or parse " ++ "bad.json") ∧
    readJson fsA "ok.json" none = Except.ok (JValue.bool true) :=
  ⟨(C4_readJson_fallback fsA "missing.json").1 _ rfl,
   (C4_readJson_fallback fsA "bad.json").2.1 rfl,
   (C4_readJson_fallback fsA "ok.json").2.2 _ none rfl⟩

/-- C5: writeJson ensures every directory of the parent chain of the path
exists, stores the value at the path overwriting any previous file, and a
subsequent readJson at the same path returns a structure equal to the
written value, for every fallback. -/
theorem C5_writeJson_roundtrip (fs : FileSystem) (pth : String) (v : JValue) :
    (∀ fb : Option JValue,
      readJson (writeJson fs pth v) pth fb = Except.ok v) ∧
    (∀ d, d ∈ dirChain (dirname pth) → d ∈ (writeJson fs pth v).dirs) ∧
    objLookup (writeJson fs pth v).files pth = some (some v) := by
  have hlook : objLookup (writeJson fs pth v).files pth = some (some v) := by
    show objLookup (objSet _ pth (some v)) pth = some (some v)
    exact objLookup_objSet _ _ _
  refine ⟨?_, ?_, hlook⟩
  · intro fb
    rw [readJson_eq]
    have hp : parsedAt (writeJson fs pth v) pth = some v := by
      unfold parsedAt
      rw [hlook]
    rw [hp]
  · intro d hd
    show d ∈ fs.dirs ++ (dirChain (dirname pth)).filter _
    rcases Decidable.em (d ∈ fs.dirs) with hmem | hmem
    · exact List.mem_append_left _ hmem
    · refine List.mem_append_right _ (List.mem_filter.mpr ⟨hd, ?_⟩)
      simpa using hmem

def fsB : FileSystem := ⟨[], []⟩

theorem C5_writeJson_roundtrip_witness :
    readJson (writeJson fsB "a/b/c.json" (JValue.num 7)) "a/b/c.json" none =
      Except.ok (JValue.num 7) ∧
    "a" ∈ (writeJson fsB "a/b/c.json" (JValue.num 7)).dirs ∧
    "a/b" ∈ (writeJson fsB "a/b/c.json" (JValue.num 7)).dirs ∧
    objLookup (writeJson fsB "a/b/c.json" (JValue.num 7)).files "a/b/c.json" =
      some (some (JValue.num 7)) :=
  ⟨(C5_writeJson_roundtrip fsB "a/b/c.json" (JValue.num 7)).1 none,
   (C5_writeJson_roundtrip fsB "a/b/c.json" (JValue.num 7)).2.1 "a"
     (by decide),
   (C5_writeJson_roundtrip fsB "a/b/c.json" (JValue.num 7)).2.1 "a/b"
     (by decide),
   (C5_writeJson_roundtrip fsB "a/b/c.json" (JValue.num 7)).2.2⟩

/-! ## The declarative API test-case table (tests/common/apiTestCases.ts)

The cluster descriptor clustersJson[0] and the job fixture testJobConfig are
external fixture files, not repository source; the table is therefore a
function of an abstract cluster descriptor c and an abstract job
configuration object cfg.  The randomness of crypto.randomBytes is made
explicit as a supply of hex strings indexed by call number. -/

structure IClusterConfig where
  username : String
  password : String
  rest_server_uri : String
  token : String

inductive PathStep where
  | key (s : String)
  | idx (n : Nat)

/-- A test-operation parameter: a raw literal, or a reference into the
results of operations already executed (resultType is the literal string
beforeResults or testResults as written in the source). -/
inductive Param where
  | raw (value : JValue)
  | fromResult (resultType : String) (resultPath : List PathStep)
      (resultIndex : Nat)

structure IApiTestResponse where
  statusCode : Nat
  expectResult : Option JValue := none

/-- An operation record as the table literally constructs it; the source
object literals nest an optional expected response inside the operation. -/
structure IApiOperation where
  tag : String := ""
  operationId : String := ""
  parameters : List Param := []
  response : Option IApiTestResponse := none

/-- A test variant.  The variant-level response field comes from the spec's
ApiTestVariant data model (the generator interfaces are not under src); the
table never sets it. -/
structure IApiTestItem where
  description : Option String := none
  operation : Option IApiOperation := none
  response : Option IApiTestResponse := none
  customizedTest : Option String := none

structure IApiTestCase where
  before : List IApiOperation := []
  tests : List IApiTestItem
  after : List IApiOperation := []

/-- The state of the module-level RandomString singleton: idx counts the
calls to crypto.randomBytes made so far (supply idx being the hex string the
next call produces), data is the memoized string. -/
structure RState where
  idx : Nat
  data : Option String

/-- RandomString.new(): draw a fresh string and memoize it. -/
def rsNew (supply : Nat → String) (st : RState) : String × RState :=
  (supply st.idx, ⟨st.idx + 1, some (supply st.idx)⟩)

/-- RandomString.get(): return the memoized string, drawing a fresh one only
if none is memoized yet. -/
def rsGet (supply : Nat → String) (st : RState) : String × RState :=
  match st.data with
  | some d => (d, st)
  | none => rsNew supply st

def createTestUser : IApiOperation :=
  { tag := "user", operationId := "createUser",
    parameters := [Param.raw (JValue.obj
      [("username", JValue.str "sdk_test_user"),
       ("password", JValue.str "test_password")])] }

def deleteTestUser : IApiOperation :=
  { tag := "user", operationId := "deleteUser",
    parameters := [Param.raw (JValue.str "sdk_test_user")] }

def createTestGroup : IApiOperation :=
  { tag := "group", operationId := "createGroup",
    parameters := [Param.raw (JValue.obj
      [("groupname", JValue.str "sdktestgroup")])] }

def deleteTestGroup : IApiOperation :=
  { tag := "group", operationId := "deleteGroup",
    parameters := [Param.raw (JValue.str "sdktestgroup")] }

/-- createTestJob(): spread the job fixture, overriding the name field with
the job prefix followed by a fresh random suffix (RandomString.new). -/
def createTestJob (cfg : List (String × JValue)) (supply : Nat → String)
    (st : RState) : IApiOperation × RState :=
  let r := rsNew supply st
  ({ tag := "job", operationId := "createJob",
     parameters := [Param.raw (JValue.obj
       (objSet cfg "name" (JValue.str ("sdk_test_job" ++ r.1))))] }, r.2)

/-- updateTestJobExecutionType(executionType): addresses the job named with
the memoized random suffix (RandomString.get). -/
def updateTestJobExecutionType (c : IClusterConfig) (supply : Nat → String)
    (executionType : String) (st : RState) : IApiOperation × RState :=
  let r := rsGet supply st
  ({ tag := "job", operationId := "updateJobExecutionType",
     parameters :=
       [Param.raw (JValue.str c.username),
        Param.raw (JValue.str ("sdk_test_job" ++ r.1)),
        Param.raw (JValue.str executionType)] }, r.2)

def createApplicationToken : IApiOperation :=
  { tag := "token", operationId := "createApplicationToken" }

def deleteTokenFrom (resultType : String) : IApiOperation :=
  { tag := "token", operationId := "deleteToken",
    parameters := [Param.fromResult resultType [PathStep.key "token"] 0] }

def entryGetTokens : IApiTestCase :=
  { before := [createApplicationToken],
    tests :=
      [{ description := some "Get tokens with user token" },
       { description := some "Get tokens with unauthorized token",
         customizedTest := some "getTokensWithUnauthorizedUser" }],
    after := [deleteTokenFrom "beforeResults"] }

def entryDeleteToken : IApiTestCase :=
  { before := [createApplicationToken],
    tests :=
      [{ operation := some { parameters :=
          [Param.fromResult "beforeResults" [PathStep.key "token"] 0] } }] }

def entryPostApplicationToken : IApiTestCase :=
  { tests := [{}],
    after := [deleteTokenFrom "testResults"] }

def loginResponse400 (code msg : String) : IApiTestResponse :=
  { statusCode := 400,
    expectResult := some (JValue.obj
      [("code", JValue.str code), ("message", JValue.str msg)]) }

def entryBasicLogin (c : IClusterConfig) : IApiTestCase :=
  { tests :=
      [{ description := some "login with correct username and password",
         operation := some { parameters :=
           [Param.raw (JValue.str c.username),
            Param.raw (JValue.str c.password)] } },
       { description := some "login with non-existent username",
         operation := some
           { parameters :=
               [Param.raw (JValue.str "nonexistentuser"),
                Param.raw (JValue.str "password")],
             response := some (loginResponse400 "NoUserError"
               "User nonexistentuser is not found.") } },
       { description := some "login with incorrect password",
         operation := some
           { parameters :=
               [Param.raw (JValue.str c.username),
                Param.raw (JValue.str "incorrectpassword")],
             response := some (loginResponse400 "IncorrectPasswordError"
               "Password is incorrect.") } }],
    after := [deleteTokenFrom "testResults"] }

def entryBasicLogout (c : IClusterConfig) : IApiTestCase :=
  { before :=
      [{ tag := "authn", operationId := "basicLogin",
         parameters :=
           [Param.raw (JValue.str c.username),
            Param.raw (JValue.str c.password)] }],
    tests :=
      [{ description := some "Logout with correct token",
         customizedTest := some "logoutWithCorrectToken" },
       { description := some "Logout with incorrect token",
         customizedTest := some "logoutWithIncorrectToken" }] }

def entryPostUsers : IApiTestCase :=
  { before := [createApplicationToken],
    tests :=
      [{ description := some "Create a user",
         operation := some createTestUser },
       { description := some "Create a conflict user",
         operation := some { createTestUser with
           response := some { statusCode := 409 } } },
       { description := some "Create a user by application token",
         customizedTest := some "createUserByApplicationToken" },
       { description := some "Create a user by non-admin user token",
         customizedTest := some "createUserByNonadminToken" }],
    after := [deleteTestUser, deleteTokenFrom "beforeResults"] }

def entryPutUsers : IApiTestCase :=
  { before := [createTestUser],
    tests :=
      [{ description := some "patch: true",
         operation := some { parameters :=
           [Param.raw (JValue.obj
             [("username", JValue.str "sdk_test_user"),
              ("email", JValue.str "new_email@test1.com")])] } },
       { description := some "patch: false",
         operation := some { parameters :=
           [Param.raw (JValue.obj
             [("username", JValue.str "sdk_test_user"),
              ("email", JValue.str "new_email@test2.com"),
              ("virtualCluster", JValue.arr [JValue.str "default"]),
              ("admin", JValue.bool false),
              ("password", JValue.str "new_test_password"),
              ("extension", JValue.obj [])]),
            Param.raw (JValue.bool false)] } }],
    after := [deleteTestUser] }

def entryPutUsersMe (c : IClusterConfig) : IApiTestCase :=
  { tests :=
      [{ description := some "patch: true",
         operation := some { parameters :=
           [Param.raw (JValue.obj
             [("username", JValue.str c.username),
              ("email", JValue.str "new_email@test1.com")])] } },
       { description := some "patch: false",
         operation := some { parameters :=
           [Param.raw (JValue.obj
             [("username", JValue.str c.username),
              ("email", JValue.str "new_email@test2.com"),
              ("oldPassword", JValue.str c.password),
              ("newPassword", JValue.str c.password)]),
            Param.raw (JValue.bool false)] } }] }

def entryGetUser (c : IClusterConfig) : IApiTestCase :=
  { tests :=
      [{ operation := some { parameters :=
          [Param.raw (JValue.str c.username)] } }] }

def entryDeleteUser : IApiTestCase :=
  { before := [createTestUser],
    tests := [{ operation := some deleteTestUser }] }

def entryPostGroups : IApiTestCase :=
  { tests := [{ operation := some createTestGroup }],
    after := [deleteTestGroup] }

def entryPutGroups : IApiTestCase :=
  { before := [createTestGroup],
    tests :=
      [{ operation := some { parameters :=
          [Param.raw (JValue.obj
            [("data", JValue.obj
               [("groupname", JValue.str "sdktestgroup"),
                ("description", JValue.str "test update group")]),
             ("patch", JValue.bool true)])] } }],
    after := [deleteTestGroup] }

def entryGetGroup : IApiTestCase :=
  { before := [createTestGroup],
    tests :=
      [{ operation := some { parameters :=
          [Param.raw (JValue.str "sdktestgroup")] } }],
    after := [deleteTestGroup] }

def entryDeleteGroup : IApiTestCase :=
  { before := [createTestGroup],
    tests := [{ operation := some deleteTestGroup }] }

def entryGetVc : IApiTestCase :=
  { tests :=
      [{ operation := some { parameters :=
          [Param.raw (JValue.str "default")] } }] }

def entryGetVcSkuTypes : IApiTestCase :=
  { tests :=
      [{ operation := some { parameters :=
          [Param.raw (JValue.str "default")] } }] }

def entryGetStorage : IApiTestCase :=
  { before := [{ tag := "storage", operationId := "getStorages" }],
    tests :=
      [{ operation := some { parameters :=
          [Param.fromResult "beforeResults"
            [PathStep.key "storages", PathStep.idx 0, PathStep.key "name"]
            0] } }] }

def entryPostJobs (c : IClusterConfig) (supply : Nat → String)
    (cfg : List (String × JValue)) (st : RState) : IApiTestCase × RState :=
  let r1 := createTestJob cfg supply st
  let r2 := updateTestJobExecutionType c supply "STOP" r1.2
  ({ tests := [{ operation := some r1.1 }],
     after := [r2.1] }, r2.2)

def entryGetJobDetail (c : IClusterConfig) (supply : Nat → String)
    (cfg : List (String × JValue)) (st : RState) : IApiTestCase × RState :=
  let r1 := createTestJob cfg supply st
  let g := rsGet supply r1.2
  let r2 := updateTestJobExecutionType c supply "STOP" g.2
  ({ before := [r1.1],
     tests := [{ operation := some { parameters :=
       [Param.raw (JValue.str c.username),
        Param.raw (JValue.str ("sdk_test_job" ++ g.1))] } }],
     after := [r2.1] }, r2.2)

def entryGetJobConfig (c : IClusterConfig) (supply : Nat → String)
    (cfg : List (String × JValue)) (st : RState) : IApiTestCase × RState :=
  let r1 := createTestJob cfg supply st
  let g := rsGet supply r1.2
  let r2 := updateTestJobExecutionType c supply "STOP" g.2
  ({ before := [r1.1],
     tests := [{ operation := some { parameters :=
       [Param.raw (JValue.str c.username),
        Param.raw (JValue.str ("sdk_test_job" ++ g.1))] } }],
     after := [r2.1] }, r2.2)

def entryPutJobExecutionType (c : IClusterConfig) (supply : Nat → String)
    (cfg : List (String × JValue)) (st : RState) : IApiTestCase × RState :=
  let r1 := createTestJob cfg supply st
  let u1 := updateTestJobExecutionType c supply "STOP" r1.2
  let u2 := updateTestJobExecutionType c supply "START" u1.2
  let u3 := updateTestJobExecutionType c supply "STOP" u2.2
  ({ before := [r1.1],
     tests :=
       [{ description := some "update job execution type to STOP",
          operation := some u1.1 },
        { description := some "update job execution type to START",
          operation := some u2.1 }],
     after := [u3.1] }, u3.2)

def entryGetJobAttempts (c : IClusterConfig) (supply : Nat → String)
    (cfg : List (String × JValue)) (st : RState) : IApiTestCase × RState :=
  let r1 := createTestJob cfg supply st
  let g := rsGet supply r1.2
  let r2 := updateTestJobExecutionType c supply "STOP" g.2
  ({ before := [r1.1],
     tests := [{ operation := some { parameters :=
       [Param.raw (JValue.str c.username),
        Param.raw (JValue.str ("sdk_test_job" ++ g.1))] } }],
     after := [r2.1] }, r2.2)

def entryGetJobAttempt (c : IClusterConfig) (supply : Nat → String)
    (cfg : List (String × JValue)) (st : RState) : IApiTestCase × RState :=
  let r1 := createTestJob cfg supply st
  let g := rsGet supply r1.2
  let r2 := updateTestJobExecutionType c supply "STOP" g.2
  ({ before := [r1.1],
     tests := [{ operation := some { parameters :=
       [Param.raw (JValue.str c.username),
        Param.raw (JValue.str ("sdk_test_job" ++ g.1)),
        Param.raw (JValue.num 0)] } }],
     after := [r2.1] }, r2.2)

/-- The static table, in the source's entry order; the module-level
RandomString singleton starts unset and is threaded through the job-related
entries in construction order. -/
def ApiDefaultTestCases (c : IClusterConfig) (supply : Nat → String)
    (cfg : List (String × JValue)) : List (String × IApiTestCase) :=
  let j1 := entryPostJobs c supply cfg ⟨0, none⟩
  let j2 := entryGetJobDetail c supply cfg j1.2
  let j3 := entryGetJobConfig c supply cfg j2.2
  let j4 := entryPutJobExecutionType c supply cfg j3.2
  let j5 := entryGetJobAttempts c supply cfg j4.2
  let j6 := entryGetJobAttempt c supply cfg j5.2
  [("get /api/v2/tokens", entryGetTokens),
   ("delete /api/v2/tokens/\x7btoken\x7d", entryDeleteToken),
   ("post /api/v2/tokens/application", entryPostApplicationToken),
   ("post /api/v2/authn/basic/login", entryBasicLogin c),
   ("delete /api/v2/authn/basic/logout", entryBasicLogout c),
   ("post /api/v2/users", entryPostUsers),
   ("put /api/v2/users", entryPutUsers),
   ("put /api/v2/users/me", entryPutUsersMe c),
   ("get /api/v2/users/\x7buser\x7d", entryGetUser c),
   ("delete /api/v2/users/\x7buser\x7d", entryDeleteUser),
   ("post /api/v2/groups", entryPostGroups),
   ("put /api/v2/groups", entryPutGroups),
   ("get /api/v2/groups/\x7bgroup\x7d", entryGetGroup),
   ("delete /api/v2/groups/\x7bgroup\x7d", entryDeleteGroup),
   ("get /api/v2/virtual-clusters/\x7bvc\x7d", entryGetVc),
   ("get /api/v2/virtual-clusters/\x7bvc\x7d/sku-types", entryGetVcSkuTypes),
   ("get /api/v2/storages/\x7bstorage\x7d", entryGetStorage),
   ("post /api/v2/jobs", j1.1),
   ("get /api/v2/jobs/\x7buser\x7d~\x7bjob\x7d", j2.1),
   ("get /api/v2/jobs/\x7buser\x7d~\x7bjob\x7d/config", j3.1),
   ("put /api/v2/jobs/\x7buser\x7d~\x7bjob\x7d/exectionType", j4.1),
   ("get /api/v2/jobs/\x7buser\x7d~\x7bjob\x7d/job-attempts", j5.1),
   ("get /api/v2/jobs/\x7buser\x7d~\x7bjob\x7d/job-attempts/\x7battemptIndex\x7d",
    j6.1)]

/-! ## Claims about the table -/

def cEx : IClusterConfig :=
  ⟨"testuser", "testpassword", "example.test", "testtoken"⟩

def supplyEx : Nat → String := fun _ => "0a0b0c0d"

def cfgEx : List (String × JValue) := []

/-- The C6 claim as stated: the second and third login variants carry their
expected 400 responses at the variant level. -/
def C6AsStated (c : IClusterConfig) : Prop :=
  (entryBasicLogin c).tests.length = 3 ∧
  (entryBasicLogin c).tests[1]?.bind (fun t => t.response) =
    some (loginResponse400 "NoUserError"
      "User nonexistentuser is not found.") ∧
  (entryBasicLogin c).tests[2]?.bind (fun t => t.response) =
    some (loginResponse400 "IncorrectPasswordError"
      "Password is incorrect.")

/-- C6 counterexample: in the source table the expected responses of the
second and third login variants are attached to the operation object, not to
the variant: at a concrete cluster descriptor the variant-level response
field of the second variant is absent, refuting the claim as stated. -/
theorem C6_variant_level_response_counterexample : ¬ C6AsStated cEx :=
  fun h => Option.noConfusion h.2.1

/-- C6 (amended): the login table entry holds exactly three variants: the
first logs in with the cluster descriptor's username and password and
declares no expected response (the generator's default success expectation
applies); the second uses username nonexistentuser and carries, on its
operation object, expected response 400 with the NoUserError body; the
third uses the correct username with an incorrect password and carries, on
its operation object, expected response 400 with the
IncorrectPasswordError body; the variant-level response field is unset on
all three. -/
theorem C6_login_entry_responses (c : IClusterConfig)
    (supply : Nat → String) (cfg : List (String × JValue)) :
    objLookup (ApiDefaultTestCases c supply cfg)
      "post /api/v2/authn/basic/login" = some (entryBasicLogin c) ∧
    (entryBasicLogin c).tests.length = 3 ∧
    ((entryBasicLogin c).tests[0]?.bind (fun t => t.operation)).map
        (fun op => (op.parameters, op.response)) =
      some ([Param.raw (JValue.str c.username),
             Param.raw (JValue.str c.password)], none) ∧
    ((entryBasicLogin c).tests[1]?.bind (fun t => t.operation)).map
        (fun op => (op.parameters, op.response)) =
      some ([Param.raw (JValue.str "nonexistentuser"),
             Param.raw (JValue.str "password")],
            some (loginResponse400 "NoUserError"
              "User nonexistentuser is not found.")) ∧
    ((entryBasicLogin c).tests[2]?.bind (fun t => t.operation)).map
        (fun op => (op.parameters, op.response)) =
      some ([Param.raw (JValue.str c.username),
             Param.raw (JValue.str "incorrectpassword")],
            some (loginResponse400 "IncorrectPasswordError"
              "Password is incorrect.")) ∧
    ((entryBasicLogin c).tests.map (fun t => t.response)) =
      [none, none, none] :=
  ⟨rfl, rfl, rfl, rfl, rfl, rfl⟩

/-- C7: the users-creation entry performs the same createUser operation
(user sdk_test_user) as its first and as its second variant, and the second
occurrence carries the expected conflict status code 409. -/
theorem C7_duplicate_user_conflict (c : IClusterConfig)
    (supply : Nat → String) (cfg : List (String × JValue)) :
    objLookup (ApiDefaultTestCases c supply cfg) "post /api/v2/users" =
      some entryPostUsers ∧
    entryPostUsers.tests[0]?.bind (fun t => t.operation) =
      some createTestUser ∧
    (entryPostUsers.tests[1]?.bind (fun t => t.operation)).map
        (fun op => (op.tag, op.operationId, op.parameters)) =
      some (createTestUser.tag, createTestUser.operationId,
            createTestUser.parameters) ∧
    createTestUser.parameters =
      [Param.raw (JValue.obj
        [("username", JValue.str "sdk_test_user"),
         ("password", JValue.str "test_password")])] ∧
    ((entryPostUsers.tests[1]?.bind (fun t => t.operation)).bind
        (fun op => op.response)) =
      some { statusCode := 409 } :=
  ⟨rfl, rfl, rfl, rfl, rfl⟩

def allVariants (tbl : List (String × IApiTestCase)) : List IApiTestItem :=
  tbl.foldr (fun e acc => e.2.tests ++ acc) []

def exactlyOneModeB (t : IApiTestItem) : Bool :=
  (t.operation.isSome && t.customizedTest.isNone) ||
  (t.operation.isNone && t.customizedTest.isSome)

def neverBothModesB (t : IApiTestItem) : Bool :=
  !(t.operation.isSome && t.customizedTest.isSome)

/-- C8 counterexample: not every variant declares exactly one of the two
execution modes: at concrete table arguments the check fails (the single
variant of the application-token entry, for one, declares neither an
operation nor a customized test). -/
theorem C8_exactly_one_mode_counterexample :
    (allVariants (ApiDefaultTestCases cEx supplyEx cfgEx)).all
      exactlyOneModeB = false := rfl

/-- C8 (amended): no variant in the table declares both a declarative
operation and a customized-test name; variants may declare neither, in
which case the generator derives the default operation for the entry's
route, so at most one of the two execution modes is declared per variant. -/
theorem C8_at_most_one_mode (c : IClusterConfig) (supply : Nat → String)
    (cfg : List (String × JValue)) :
    (allVariants (ApiDefaultTestCases c supply cfg)).all
      neverBothModesB = true := rfl

def checkParamSpec (e : IApiTestCase) (inAfter : Bool) : Param → Bool
  | Param.raw _ => true
  | Param.fromResult rt _ ri =>
      if rt = "beforeResults" then decide (ri < e.before.length)
      else if rt = "testResults" then
        inAfter && decide (ri < e.tests.length)
      else false

def opSpecsOk (e : IApiTestCase) (inAfter : Bool) (op : IApiOperation) :
    Bool :=
  op.parameters.all (checkParamSpec e inAfter)

def caseSpecsOk (e : IApiTestCase) : Bool :=
  e.before.all (opSpecsOk e false) &&
  e.tests.all (fun t =>
    match t.operation with
    | some op => opSpecsOk e false op
    | none => true) &&
  e.after.all (opSpecsOk e true)

/-- C9: every fromResult parameter specification in the table references an
operation that has already executed within its test case: beforeResults
specs (in tests or after operations) have resultIndex below the length of
the entry's before list, and testResults specs occur only in after
operations, with resultIndex below the number of test variants that ran
before the after phase. -/
theorem C9_fromResult_wellformed (c : IClusterConfig)
    (supply : Nat → String) (cfg : List (String × JValue)) :
    (ApiDefaultTestCases c supply cfg).all (fun e => caseSpecsOk e.2) =
      true := rfl

/-- The name field of the job configuration submitted by a createJob
operation. -/
def createdJobName (op : IApiOperation) : Option JValue :=
  match op.parameters with
  | [Param.raw (JValue.obj fields)] => objLookup fields "name"
  | _ => none

/-- The job-name argument (second parameter) of an operation addressing an
existing job. -/
def jobNameParam (op : IApiOperation) : Option Param :=
  op.parameters[1]?

/-- C10: RandomString.get after RandomString.new returns exactly the string
new returned, and repeated gets without an intervening new return equal
strings; consequently, in every job-related table entry (each started from
an arbitrary singleton state st), the job name used by the test operations
and by the after cleanup is the prefixed name with the suffix drawn by the
entry's createTestJob, i.e. the name of the createTestJob operation built
most recently before them. -/
theorem C10_randomString_job_names :
    (∀ (supply : Nat → String) (st : RState),
      (rsGet supply (rsNew supply st).2).1 = (rsNew supply st).1) ∧
    (∀ (supply : Nat → String) (st : RState),
      (rsGet supply (rsGet supply st).2).1 = (rsGet supply st).1) ∧
    (∀ (c : IClusterConfig) (supply : Nat → String)
      (cfg : List (String × JValue)) (st : RState),
      (((entryPostJobs c supply cfg st).1.tests[0]?.bind
          (fun t => t.operation)).bind createdJobName =
        some (JValue.str ("sdk_test_job" ++ supply st.idx)) ∧
       ((entryPostJobs c supply cfg st).1.after[0]?.bind jobNameParam) =
        some (Param.raw (JValue.str ("sdk_test_job" ++ supply st.idx)))) ∧
      (((entryGetJobDetail c supply cfg st).1.before[0]?.bind
          createdJobName) =
        some (JValue.str ("sdk_test_job" ++ supply st.idx)) ∧
       (((entryGetJobDetail c supply cfg st).1.tests[0]?.bind
          (fun t => t.operation)).bind jobNameParam) =
        some (Param.raw (JValue.str ("sdk_test_job" ++ supply st.idx))) ∧
       ((entryGetJobDetail c supply cfg st).1.after[0]?.bind jobNameParam) =
        some (Param.raw (JValue.str ("sdk_test_job" ++ supply st.idx)))) ∧
      (((entryGetJobConfig c supply cfg st).1.before[0]?.bind
          createdJobName) =
        some (JValue.str ("sdk_test_job" ++ supply st.idx)) ∧
       (((entryGetJobConfig c supply cfg st).1.tests[0]?.bind
          (fun t => t.operation)).bind jobNameParam) =
        some (Param.raw (JValue.str ("sdk_test_job" ++ supply st.idx))) ∧
       ((entryGetJobConfig c supply cfg st).1.after[0]?.bind jobNameParam) =
        some (Param.raw (JValue.str ("sdk_test_job" ++ supply st.idx)))) ∧
      (((entryPutJobExecutionType c supply cfg st).1.before[0]?.bind
          createdJobName) =
        some (JValue.str ("sdk_test_job" ++ supply st.idx)) ∧
       (((entryPutJobExecutionType c supply cfg st).1.tests[0]?.bind
          (fun t => t.operation)).bind jobNameParam) =
        some (Param.raw (JValue.str ("sdk_test_job" ++ supply st.idx))) ∧
       (((entryPutJobExecutionType c supply cfg st).1.tests[1]?.bind
          (fun t => t.operation)).bind jobNameParam) =
        some (Param.raw (JValue.str ("sdk_test_job" ++ supply st.idx))) ∧
       ((entryPutJobExecutionType c supply cfg st).1.after[0]?.bind
          jobNameParam) =
        some (Param.raw (JValue.str ("sdk_test_job" ++ supply st.idx)))) ∧
      (((entryGetJobAttempts c supply cfg st).1.before[0]?.bind
          createdJobName) =
        some (JValue.str ("sdk_test_job" ++ supply st.idx)) ∧
       (((entryGetJobAttempts c supply cfg st).1.tests[0]?.bind
          (fun t => t.operation)).bind jobNameParam) =
        some (Param.raw (JValue.str ("sdk_test_job" ++ supply st.idx))) ∧
       ((entryGetJobAttempts c supply cfg st).1.after[0]?.bind
          jobNameParam) =
        some (Param.raw (JValue.str ("sdk_test_job" ++ supply st.idx)))) ∧
      (((entryGetJobAttempt c supply cfg st).1.before[0]?.bind
          createdJobName) =
        some (JValue.str ("sdk_test_job" ++ supply st.idx)) ∧
       (((entryGetJobAttempt c supply cfg st).1.tests[0]?.bind
          (fun t => t.operation)).bind jobNameParam) =
        some (Param.raw (JValue.str ("sdk_test_job" ++ supply st.idx))) ∧
       ((entryGetJobAttempt c supply cfg st).1.after[0]?.bind
          jobNameParam) =
        some (Param.raw (JValue.str ("sdk_test_job" ++ supply st.idx))))) := by
  refine ⟨fun supply st => rfl, fun supply st => ?_, ?_⟩
  · rcases st with ⟨i, d⟩
    cases d <;> rfl
  · intro c supply cfg st
    refine ⟨⟨?_, rfl⟩, ⟨?_, rfl, rfl⟩, ⟨?_, rfl, rfl⟩,
      ⟨?_, rfl, rfl, rfl⟩, ⟨?_, rfl, rfl⟩, ⟨?_, rfl, rfl⟩⟩ <;>
    · show objLookup
        (objSet cfg "name"
          (JValue.str ("sdk_test_job" ++ supply st.idx))) "name" = _
      exact objLookup_objSet _ _ _

end OpenPaiSdk
